import Mathlib

/-!
Shallow embedding of the AC-cal control-system calculator for claim checking.

The frontend JavaScript (parsing, input handlers, result renderers) is embedded
directly from the source files.  The Python backend engine is absent from the
repository snapshot, so the backend operations are modelled from the written
specification; each such definition carries a doc comment starting with
`Modelled from the spec:`.

Numbers are modelled as `Rat`; a JavaScript number that may be `NaN` is
modelled as `Option Rat` with `none` standing for `NaN` (and, field-wise,
for `null`/`undefined`).
-/

namespace ACCal

/-! ### parsingUtils.js — `parseComplexNumbers`

The function matches each comma-separated part against the regular expression
`/^(-?[0-9\.]+)?([+-]?[0-9\.]+j)?$/`.  We embed the regex by an explicit
backtracking matcher specialised to this pattern: group 1 is tried greedily
(longest valid prefix first, then shorter, then absent), and for each choice
group 2 must consume the entire remainder (it is anchored by `$`), or be
absent with an empty remainder. -/

/-- Character class `[0-9\.]` of the regex. -/
def isDigitDot (c : Char) : Bool := c.isDigit || c = '.'

/-- Language of regex group 1, `-?[0-9\.]+`. -/
def g1Valid (l : List Char) : Bool :=
  match l with
  | '-' :: t => !t.isEmpty && t.all isDigitDot
  | _ => !l.isEmpty && l.all isDigitDot

/-- Language of regex group 2, `[+-]?[0-9\.]+j`. -/
def g2Valid (l : List Char) : Bool :=
  let t := match l with
    | '+' :: t => t
    | '-' :: t => t
    | _ => l
  (t.getLast? == some 'j') && !t.dropLast.isEmpty && t.dropLast.all isDigitDot

/-- Backtracking search over the split position between group 1 and group 2,
trying group-1 lengths from `n` down to `1`, then group 1 absent (the greedy
order of the JavaScript regex engine).  Returns the two captures
(`none` = the optional group did not participate). -/
def matchG1Split : Nat → List Char → Option (Option (List Char) × Option (List Char))
  | 0, part =>
      if g2Valid part then some (none, some part)
      else if part.isEmpty then some (none, none)
      else none
  | (n+1), part =>
      let u := part.take (n+1)
      let v := part.drop (n+1)
      if g1Valid u then
        if g2Valid v then some (some u, some v)
        else if v.isEmpty then some (some u, none)
        else matchG1Split n part
      else matchG1Split n part

/-- `part.match(/^(-?[0-9\.]+)?([+-]?[0-9\.]+j)?$/)`:
`none` = no match, otherwise the pair of captures. -/
def matchPart (part : List Char) : Option (Option (List Char) × Option (List Char)) :=
  matchG1Split part.length part

/-- An exact decimal number `m / 10^k`, the value produced by parsing a
decimal literal: mantissa and scale.  Kept unreduced so that equality and
all evaluations stay structural. -/
abbrev Dec := Int × Nat

/-- The rational value of a decimal. -/
def Dec.toRat (d : Dec) : Rat := (d.1 : Rat) / 10 ^ d.2

/-- Consume a run of decimal digits: value, number of digits, rest. -/
def parseDigits : List Char → Nat × Nat × List Char
  | [] => (0, 0, [])
  | c :: t =>
      if c.isDigit then
        let (v, n, r) := parseDigits t
        -- digits accumulate most-significant first
        (c.toNat - '0'.toNat) * 10 ^ n + v |> fun v' => (v', n + 1, r)
      else (0, 0, c :: t)

/-- JavaScript `parseFloat` restricted to the strings this code feeds it
(an optional sign followed by digits and dots — the regex admits no other
characters): optional sign, integer digits, an optional dot with fraction
digits, stopping at the first character that cannot extend the number.
The result `sign * (ip + fp/10^fcnt)` is returned as the exact decimal
`(sign * (ip * 10^fcnt + fp)) / 10^fcnt`.
`none` models the `NaN` result when no digit is consumed. -/
def jsParseFloat (l : List Char) : Option Dec :=
  let (sign, l1) : Int × List Char :=
    match l with
    | '-' :: t => (-1, t)
    | '+' :: t => (1, t)
    | _ => (1, l)
  let (ip, icnt, l2) := parseDigits l1
  let (fp, fcnt) : Nat × Nat :=
    match l2 with
    | '.' :: t => let (v, n, _) := parseDigits t; (v, n)
    | _ => (0, 0)
  if icnt = 0 && fcnt = 0 then none
  else some (sign * ((ip : Int) * 10 ^ fcnt + fp), fcnt)

/-- `imagPart.replace('j', '')`: remove the first occurrence of `'j'`. -/
def removeFirstJ : List Char → List Char
  | [] => []
  | c :: t => if c = 'j' then t else c :: removeFirstJ t

/-- `part.endsWith(c)` for a single character. -/
def endsWithChar (l : List Char) (c : Char) : Bool := l.getLast? == some c

/-- The body of the `parts.map(...)` callback of `parseComplexNumbers`:
produce the `{real, imag}` pair for one part, `(none, none)` standing for the
`NaN` sentinel returned on invalid format (reading a number field of the `NaN`
sentinel gives `undefined`, whose `isNaN` is true, so both components count as
invalid). -/
def perPart (part : List Char) : Option Dec × Option Dec :=
  match matchPart part with
  | none => (none, none)
  | some (g1, g2) =>
    if endsWithChar part '+' || endsWithChar part '-' then (none, none)
    else
      let real : Option Dec :=
        match g1 with
        | some r => jsParseFloat r
        | none => some (0, 0)
      let imag : Option Dec :=
        match g2 with
        | none => some (0, 0)
        | some ip =>
            if ip = ['j'] || ip = ['+', 'j'] then some (1, 0)
            else if ip = ['-', 'j'] then some (-1, 0)
            else jsParseFloat (removeFirstJ ip)
      -- `if (!realPart && imagPart) return {real: 0, imag: imag};`
      if g1.isNone && g2.isSome then (some (0, 0), imag) else (real, imag)

/-- JavaScript `String.prototype.trim`: strip whitespace from both ends. -/
def jsTrim (l : List Char) : List Char :=
  ((l.dropWhile Char.isWhitespace).reverse.dropWhile Char.isWhitespace).reverse

/-- JavaScript `String.prototype.split(',')`: `""` gives `[""]`, adjacent
separators give empty pieces. -/
def splitComma : List Char → List (List Char)
  | [] => [[]]
  | c :: t =>
      if c = ',' then [] :: splitComma t
      else
        match splitComma t with
        | h :: r => (c :: h) :: r
        | [] => [[c]]

/-- The error message thrown on an invalid complex-number format. -/
def invalidComplexMsg : String :=
  "包含无效的复数格式。请使用 a+bj 的形式，例如: -1, -2+3j, -2-3j"

/-- `parseComplexNumbers` from `frontend/src/utils/parsingUtils.js`:
empty (after trim) input gives `[]`; otherwise split on commas, trim, parse
each part, and throw if any part produced a `NaN` component. -/
def parseComplexNumbers (input : String) : Except String (List (Dec × Dec)) :=
  if jsTrim input.data = [] then .ok []
  else
    let parts := (splitComma input.data).map jsTrim
    let cs := parts.map perPart
    if cs.any (fun c => c.1.isNone || c.2.isNone) then .error invalidComplexMsg
    else .ok (cs.map (fun c => (c.1.getD (0, 0), c.2.getD (0, 0))))

/-! ### Input handlers

`RootLocusInput.handleAnalyze` and `FrequencyDomainInput.handleAnalyze`
either record a human-readable error or issue the analysis request through
`onAnalyze`; the outcome type below separates the two. -/

/-- Error message shown when no pole was supplied. -/
def polesRequiredMsg : String := "必须至少输入一个极点。"

/-- Error message shown when the gain is not a valid number. -/
def gainInvalidMsg : String := "增益 K 必须是有效的数字。"

/-- Outcome of `RootLocusInput.handleAnalyze`: either `setError` was called
with a message, or `onAnalyze(parsedZeros, parsedPoles)` was issued. -/
inductive RLOutcome where
  | err (msg : String)
  | request (zeros poles : List (Dec × Dec))
deriving DecidableEq

/-- `RootLocusInput.handleAnalyze` from
`frontend/src/components/RootLocusInput.jsx`: parse both fields (a parse
error is caught and displayed), reject an empty pole list, otherwise issue
the request. -/
def rlHandleAnalyze (zerosStr polesStr : String) : RLOutcome :=
  match parseComplexNumbers zerosStr with
  | .error e => .err e
  | .ok parsedZeros =>
    match parseComplexNumbers polesStr with
    | .error e => .err e
    | .ok parsedPoles =>
      if parsedPoles.length = 0 then .err polesRequiredMsg
      else .request parsedZeros parsedPoles

/-- Outcome of `FrequencyDomainInput.handleAnalyze`: an error, or
`onAnalyze(parsedZeros, parsedPoles, gain)`; the request keeps the result of
`parseFloat(gain)` (with `none` for `NaN`) alongside. -/
inductive FDOutcome where
  | err (msg : String)
  | request (zeros poles : List (Dec × Dec)) (gain : Option Rat)
deriving DecidableEq

/-- `FrequencyDomainInput.handleAnalyze` from
`frontend/src/components/FrequencyDomainInput.jsx`.  The gain field is an
arbitrary string run through the full JavaScript `parseFloat`; its result is
taken here as the explicit argument `gainParsed` (`none` = `NaN`). -/
def fdHandleAnalyze (zerosStr polesStr : String) (gainParsed : Option Rat) : FDOutcome :=
  match parseComplexNumbers zerosStr with
  | .error e => .err e
  | .ok parsedZeros =>
    match parseComplexNumbers polesStr with
    | .error e => .err e
    | .ok parsedPoles =>
      if parsedPoles.length = 0 then .err polesRequiredMsg
      else if gainParsed.isNone then .err gainInvalidMsg
      else .request parsedZeros parsedPoles gainParsed

/-- The `gain` field of the request body built by `analyzeFrequencyDomainAPI`
in `frontend/src/utils/controlSystemUtils.js`: `parseFloat(gain) || 1.0`.
The argument is the `parseFloat(gain)` result (`none` = `NaN`); the JavaScript
`||` falls through to `1.0` exactly on the falsy numbers `NaN` and `±0`. -/
def sentGain (gainParsed : Option Rat) : Rat :=
  match gainParsed with
  | none => 1
  | some v => if v = 0 then 1 else v

/-! ### Complex-point serialization (C5)

A JSON object holding a complex point is modelled by its four possibly-present
numeric keys; reading an absent key in JavaScript yields `undefined` (`none`). -/

structure JsPoint where
  x? : Option Rat
  y? : Option Rat
  real? : Option Rat
  imag? : Option Rat
deriving DecidableEq

/-- Serialization the spec prescribes for every complex number:
a pair of keys `real` and `imag`. -/
def serializeRealImag (re im : Rat) : JsPoint :=
  { x? := none, y? := none, real? := some re, imag? := some im }

/-- Serialization as a pair of keys `x` and `y`. -/
def serializeXY (re im : Rat) : JsPoint :=
  { x? := some re, y? := some im, real? := none, imag? := none }

/-- How `RootLocusResult` (frontend/src/components/RootLocusResult.jsx) reads
a pole/zero/branch point of the `plot_root_locus` response:
`poles.map(p => p.x)`, `poles.map(p => p.y)`. -/
def rlReadPoint (p : JsPoint) : Option Rat × Option Rat := (p.x?, p.y?)

/-- How `FrequencyAnalysis` (the unnamed frequency-analysis component) reads
poles/zeros of its response: `p.real`, `p.imag`. -/
def faReadPoint (p : JsPoint) : Option Rat × Option Rat := (p.real?, p.imag?)

/-! ### Result renderers (C3, C4)

Rendering either produces display text or raises a JavaScript exception;
`Except String` captures that.  Calling `toFixed` on a number succeeds and
calling it on `null`/`undefined` throws a `TypeError` — `jsToFixed` mirrors
exactly that, with the number formatting itself abstracted by `fmtNum`. -/

/-- Abstraction of JavaScript number formatting (`toFixed` output text). -/
def fmtNum (v : Rat) : String := toString v

/-- `v.toFixed(...)`: succeeds on a number, throws on `null`/`undefined`. -/
def jsToFixed (v : Option Rat) : Except String String :=
  match v with
  | some r => .ok (fmtNum r)
  | none => .error "TypeError: toFixed of null"

/-- Gain-margin line of `FrequencyDomainResult`:
`gain_margin_db !== null ? gain_margin_db.toFixed(2) + ' dB' : '无穷大'`. -/
def renderGainMargin (gm : Option Rat) : Except String String :=
  if gm ≠ none then (jsToFixed gm).map (fun s => s ++ " dB") else .ok "无穷大"

/-- Phase-margin line of `FrequencyDomainResult`:
`phase_margin_deg !== null ? phase_margin_deg.toFixed(2) + ' deg' : '未定义'`. -/
def renderPhaseMargin (pm : Option Rat) : Except String String :=
  if pm ≠ none then (jsToFixed pm).map (fun s => s ++ " deg") else .ok "未定义"

/-- The `inverse_analyze_tf` response consumed by `InverseAnalysisResult`. -/
structure InverseResult where
  damping_ratio : Option Rat
  natural_frequency : Option Rat
  message : Option String

/-- Fallback text of `InverseAnalysisResult` when everything is null. -/
def inverseFallbackMsg : String := "无法计算阻尼比和无阻尼自振频率，请检查输入。"

/-- `InverseAnalysisResult` (frontend/src/components/InverseAnalysisResult.jsx):
the list of paragraphs rendered for a result — the message if present, the ζ
and ωₙ lines guarded by their null checks, and the fallback line when all
three are absent.  `toFixed(3)` is only reached behind a non-null guard. -/
def renderInverse (r : InverseResult) : Except String (List String) := do
  let msgLine : List String :=
    match r.message with
    | some m => [m]
    | none => []
  let drLine : List String ←
    match r.damping_ratio with
    | some _ => do
        let s ← jsToFixed r.damping_ratio
        pure ["阻尼比 (ζ): " ++ s]
    | none => pure []
  let nfLine : List String ←
    match r.natural_frequency with
    | some _ => do
        let s ← jsToFixed r.natural_frequency
        pure ["无阻尼自振频率 (ωn): " ++ s]
    | none => pure []
  let fallback : List String :=
    if r.damping_ratio = none ∧ r.natural_frequency = none ∧ r.message = none
    then [inverseFallbackMsg] else []
  pure (msgLine ++ drLine ++ nfLine ++ fallback)

/-! ### Backend time-domain analysis — modelled from the spec (C1, C4, C6)

The Python backend is not part of the repository snapshot; the definitions
below follow §4.2 of the specification. -/

/-- Stability status of the `analyze_tf` response. -/
inductive StabilityStatus where
  | stable
  | marginal
  | unstable
deriving DecidableEq

/-- The five time-domain metrics of the `analyze_tf` response. -/
structure TimeMetrics where
  rise_time : Rat
  peak_time : Rat
  max_overshoot : Rat
  settling_time_2_percent : Rat
  settling_time_5_percent : Rat

/-- Modelled from the spec: stability is "classified from denominator roots —
all strictly negative real parts ⇒ stable; any zero real part ⇒ marginal;
any positive real part ⇒ unstable", read as the ordered case analysis it is
written as (a pole list that reaches the last case and is not all-negative
contains a positive-real-part root). -/
def classifyStability (poles : List (Rat × Rat)) : StabilityStatus :=
  if poles.all (fun p => decide (p.1 < 0)) then .stable
  else if poles.any (fun p => decide (p.1 = 0)) then .marginal
  else .unstable

/-- Modelled from the spec: "settling time at both 2% and 5% tolerance bands
(last time the response exits the band)" — the largest sample time at which
the simulated response lies outside the `tol` band around the final value
`yf` (0 when it never leaves the band). -/
def settlingTime (tol yf : Rat) (samples : List (Rat × Rat)) : Rat :=
  samples.foldl (fun acc s => if tol * |yf| < |s.2 - yf| then max acc s.1 else acc) 0

/-- First sample time at which the response reaches `c * yf` (0 if never):
used for the 10%→90% rise time. -/
def firstCrossing (c yf : Rat) (samples : List (Rat × Rat)) : Rat :=
  ((samples.find? (fun s => decide (c * yf ≤ s.2))).map Prod.fst).getD 0

/-- Largest response value of the simulation. -/
def peakValue (samples : List (Rat × Rat)) : Rat :=
  samples.foldl (fun acc s => max acc s.2) 0

/-- First sample time attaining the peak value. -/
def peakTime (samples : List (Rat × Rat)) : Rat :=
  ((samples.find? (fun s => decide (peakValue samples ≤ s.2))).map Prod.fst).getD 0

/-- Modelled from the spec: metric extraction from the simulated unit-step
response ("rise time (10%→90% crossing), peak time and max overshoot (first
local maximum above final value), settling time at both 2% and 5% tolerance
bands"); the first local maximum is realized as the peak of the simulated
samples, as for the step response of a stable system. -/
def stepMetrics (samples : List (Rat × Rat)) (yf : Rat) : TimeMetrics :=
  { rise_time := firstCrossing (9/10) yf samples - firstCrossing (1/10) yf samples
    peak_time := peakTime samples
    max_overshoot := if yf = 0 then 0 else (peakValue samples - yf) / yf * 100
    settling_time_2_percent := settlingTime (2/100) yf samples
    settling_time_5_percent := settlingTime (5/100) yf samples }

/-- The `analyze_tf` response: optional metrics and the stability block;
`simulated` records whether a step response was computed at all. -/
structure AnalyzeTFResponse where
  metrics : Option TimeMetrics
  status : StabilityStatus
  poles : List (Rat × Rat)
  simulated : Bool

/-- Modelled from the spec: the `analyze_tf` operation.  The numerical
unit-step simulation of the backend is abstracted by the sample sequence
`samples` (time, value) it would produce together with the final value `yf`;
"for marginal/unstable systems, all time-domain metrics are null and the
response is not simulated". -/
def analyzeTF (poles : List (Rat × Rat)) (samples : List (Rat × Rat)) (yf : Rat) :
    AnalyzeTFResponse :=
  let st := classifyStability poles
  if st = .stable then
    { metrics := some (stepMetrics samples yf), status := st, poles := poles,
      simulated := true }
  else
    { metrics := none, status := st, poles := poles, simulated := false }

/-- Modelled from the spec: the validity guard of `inverse_analyze_tf`.
The second-order solver is abstracted by its candidate solution
(`none` when the supplied metrics are mutually inconsistent); a candidate
with ζ outside (0,1) or ωₙ ≤ 0 yields the null result with an explanatory
message rather than an error. -/
def inverseAnalyzeTF (candidate : Option (Rat × Rat)) : InverseResult :=
  match candidate with
  | none =>
      { damping_ratio := none, natural_frequency := none,
        message := some "无法根据给定的指标求解，请检查输入是否一致。" }
  | some (z, w) =>
      if 0 < z ∧ z < 1 ∧ 0 < w then
        { damping_ratio := some z, natural_frequency := some w, message := none }
      else
        { damping_ratio := none, natural_frequency := none,
          message := some "求解结果超出有效范围 (0<ζ<1, ωn>0)，请检查输入。" }

/-! ### Root-locus asymptotes — modelled from the spec (C7) -/

/-- Componentwise sum of a list of complex points. -/
def csum (l : List (Rat × Rat)) : Rat × Rat :=
  l.foldl (fun a b => (a.1 + b.1, a.2 + b.2)) (0, 0)

/-- The `asymptotes` block of the `plot_root_locus` response. -/
structure AsymptoteSet where
  centroid : Rat × Rat
  angles : List Rat

/-- Modelled from the spec: "Asymptotes (only when |P|>|Z|):
centroid = (Σpoles − Σzeros)/(|P|−|Z|); angles = (2k+1)·180°/(|P|−|Z|)
for k = 0…(|P|−|Z|−1)". -/
def computeAsymptotes (zeros poles : List (Rat × Rat)) : Option AsymptoteSet :=
  if zeros.length < poles.length then
    let n : Nat := poles.length - zeros.length
    let sp := csum poles
    let sz := csum zeros
    some { centroid := ((sp.1 - sz.1) / n, (sp.2 - sz.2) / n)
           angles := (List.range n).map (fun k => ((2 * k + 1 : Nat) : Rat) * 180 / n) }
  else none

end ACCal

deriving instance DecidableEq for Except

namespace ACCal

/-! ### Theorems for the claims -/

/-- C2: for every root-locus or frequency-domain analysis whose parsed pole
list is empty, both input handlers record the human-readable error
`polesRequiredMsg` and issue no request (for any gain value the
frequency-domain handler was given). -/
theorem zero_poles_rejected (zs ps : String) (zl : List (Dec × Dec))
    (hz : parseComplexNumbers zs = .ok zl)
    (hp : parseComplexNumbers ps = .ok []) :
    rlHandleAnalyze zs ps = .err polesRequiredMsg ∧
    ∀ g : Option Rat, fdHandleAnalyze zs ps g = .err polesRequiredMsg := by
  unfold rlHandleAnalyze fdHandleAnalyze
  rw [hz, hp]
  simp

/-- C2 witness: the empty zero string parses to `[]` and a whitespace pole
string parses to `[]`; both handlers reject. -/
theorem zero_poles_rejected_witness :
    rlHandleAnalyze "" " " = .err polesRequiredMsg ∧
    fdHandleAnalyze "" " " (some 1) = .err polesRequiredMsg :=
  ⟨(zero_poles_rejected "" " " [] (by decide) (by decide)).1,
   (zero_poles_rejected "" " " [] (by decide) (by decide)).2 (some 1)⟩

/-- C3: a null gain margin renders as the infinite marker `无穷大`, a null
phase margin renders as the undefined marker `未定义`, and for every margin
value the rendering succeeds (never raises). -/
theorem null_margins_render_infinite :
    renderGainMargin none = .ok "无穷大" ∧
    renderPhaseMargin none = .ok "未定义" ∧
    (∀ gm : Option Rat, ∃ s, renderGainMargin gm = .ok s) ∧
    (∀ pm : Option Rat, ∃ s, renderPhaseMargin pm = .ok s) := by
  refine ⟨rfl, rfl, ?_, ?_⟩ <;> rintro (_ | v)
  · exact ⟨"无穷大", rfl⟩
  · exact ⟨fmtNum v ++ " dB", rfl⟩
  · exact ⟨"未定义", rfl⟩
  · exact ⟨fmtNum v ++ " deg", rfl⟩

/-- C5 counterexample: the root-locus result reader takes the `x`/`y` keys of
a point, so on a point serialized as `{real, imag}` (here `1 + 2i`) it reads
`undefined` for both coordinates instead of the pair `(1, 2)`. -/
theorem rl_reader_not_real_imag :
    rlReadPoint (serializeRealImag 1 2) = (none, none) ∧
    rlReadPoint (serializeRealImag 1 2) ≠ (some 1, some 2) := by
  exact ⟨rfl, by simp [rlReadPoint, serializeRealImag]⟩

/-- C5 (amended): the serialization consumed differs by endpoint — the
frequency-analysis reader recovers a complex number from the `{real, imag}`
serialization, while the root-locus reader recovers it from the `{x, y}`
serialization and reads `undefined` twice on a `{real, imag}` point. -/
theorem complex_serialization_by_endpoint (re im : Rat) :
    faReadPoint (serializeRealImag re im) = (some re, some im) ∧
    rlReadPoint (serializeXY re im) = (some re, some im) ∧
    rlReadPoint (serializeRealImag re im) = (none, none) :=
  ⟨rfl, rfl, rfl⟩

/-- C8: analyses are deterministic — the complex-number parser and the
(modelled) `analyze_tf` operation are pure functions of their input: two runs
on identical input give identical outcomes, equal result lists and equal
error, with no other state involved. -/
theorem analyses_deterministic (s t : String) (h : s = t)
    (poles poles' samples samples' : List (Rat × Rat)) (yf yf' : Rat)
    (hp : poles = poles') (hs : samples = samples') (hy : yf = yf') :
    parseComplexNumbers s = parseComplexNumbers t ∧
    analyzeTF poles samples yf = analyzeTF poles' samples' yf' := by
  subst h hp hs hy
  exact ⟨rfl, rfl⟩

/-- C8 witness: two runs on the input `"-2+3j"` agree. -/
theorem analyses_deterministic_witness :
    parseComplexNumbers "-2+3j" = parseComplexNumbers "-2+3j" ∧
    analyzeTF [(-1, 0)] [(0, 0)] 1 = analyzeTF [(-1, 0)] [(0, 0)] 1 :=
  analyses_deterministic "-2+3j" "-2+3j" rfl [(-1, 0)] [(-1, 0)] [(0, 0)] [(0, 0)] 1 1
    rfl rfl rfl

/-- Helper for C1/C6: the response status is the classification of the poles. -/
lemma analyzeTF_status (poles samples : List (Rat × Rat)) (yf : Rat) :
    (analyzeTF poles samples yf).status = classifyStability poles := by
  simp only [analyzeTF]
  split <;> rfl

/-- Helper for C1: metrics are absent exactly off the stable branch. -/
lemma analyzeTF_metrics_none_iff (poles samples : List (Rat × Rat)) (yf : Rat) :
    (analyzeTF poles samples yf).metrics = none ↔ classifyStability poles ≠ .stable := by
  simp only [analyzeTF]
  split <;> simp_all

/-- Helper for C1: the step response is simulated exactly on the stable branch. -/
lemma analyzeTF_simulated_iff (poles samples : List (Rat × Rat)) (yf : Rat) :
    (analyzeTF poles samples yf).simulated = false ↔ classifyStability poles ≠ .stable := by
  simp only [analyzeTF]
  split <;> simp_all

/-- Helper for C1/C6: the stable verdict is exactly "all strictly negative
real parts". -/
lemma classifyStability_stable_iff (poles : List (Rat × Rat)) :
    classifyStability poles = .stable ↔ ∀ p ∈ poles, p.1 < 0 := by
  unfold classifyStability
  by_cases h1 : poles.all (fun p => decide (p.1 < 0)) = true
  · rw [if_pos h1]
    simp only [List.all_eq_true, decide_eq_true_eq] at h1
    exact iff_of_true rfl h1
  · rw [if_neg h1]
    simp only [List.all_eq_true, decide_eq_true_eq] at h1
    split
    · exact iff_of_false (by simp) h1
    · exact iff_of_false (by simp) h1

/-- Helper for C1: the marginal verdict is exactly "some zero real part"
(a zero-real-part pole already defeats the all-negative test). -/
lemma classifyStability_marginal_iff (poles : List (Rat × Rat)) :
    classifyStability poles = .marginal ↔ ∃ p ∈ poles, p.1 = 0 := by
  unfold classifyStability
  by_cases h1 : poles.all (fun p => decide (p.1 < 0)) = true
  · rw [if_pos h1]
    simp only [List.all_eq_true, decide_eq_true_eq] at h1
    constructor
    · intro h; cases h
    · rintro ⟨p, hp, hz⟩
      exact absurd (h1 p hp) (by simp [hz])
  · rw [if_neg h1]
    by_cases h2 : poles.any (fun p => decide (p.1 = 0)) = true
    · rw [if_pos h2]
      simp only [List.any_eq_true, decide_eq_true_eq] at h2
      exact iff_of_true rfl h2
    · rw [if_neg h2]
      simp only [List.any_eq_true, decide_eq_true_eq] at h2
      exact iff_of_false (by simp) h2

/-- Helper for C1: the unstable verdict is exactly "a positive real part and
no zero real part" (with a zero real part present the ordered classification
reports marginal instead). -/
lemma classifyStability_unstable_iff (poles : List (Rat × Rat)) :
    classifyStability poles = .unstable ↔
      (∃ p ∈ poles, 0 < p.1) ∧ ∀ p ∈ poles, p.1 ≠ 0 := by
  constructor
  · intro h
    unfold classifyStability at h
    by_cases h1 : poles.all (fun p => decide (p.1 < 0)) = true
    · rw [if_pos h1] at h; cases h
    by_cases h2 : poles.any (fun p => decide (p.1 = 0)) = true
    · rw [if_neg h1, if_pos h2] at h; cases h
    simp only [List.all_eq_true, decide_eq_true_eq] at h1
    simp only [List.any_eq_true, decide_eq_true_eq] at h2
    push_neg at h1 h2
    obtain ⟨p, hp, hnlt⟩ := h1
    have hpos : 0 < p.1 := lt_of_le_of_ne hnlt (Ne.symm (h2 p hp))
    exact ⟨⟨p, hp, hpos⟩, h2⟩
  · rintro ⟨⟨p, hp, hpos⟩, hnz⟩
    have h1 : ¬ poles.all (fun p => decide (p.1 < 0)) = true := by
      simp only [List.all_eq_true, decide_eq_true_eq]
      push_neg
      exact ⟨p, hp, hpos.le⟩
    have h2 : ¬ poles.any (fun p => decide (p.1 = 0)) = true := by
      simp only [List.any_eq_true, decide_eq_true_eq]
      push_neg
      exact hnz
    unfold classifyStability
    rw [if_neg h1, if_neg h2]

/-- C1: the `analyze_tf` stability verdict is classified from the poles
exactly as the spec's ordered case analysis — stable iff all real parts are
strictly negative, marginal iff some real part is zero (which already defeats
the all-negative test), and otherwise unstable iff some real part is positive
with none zero; and the metrics object is null and no step response is
simulated exactly when the status is not stable. -/
theorem analyze_tf_stability_classification
    (poles samples : List (Rat × Rat)) (yf : Rat) :
    ((analyzeTF poles samples yf).status = .stable ↔ ∀ p ∈ poles, p.1 < 0) ∧
    ((analyzeTF poles samples yf).status = .marginal ↔ ∃ p ∈ poles, p.1 = 0) ∧
    ((analyzeTF poles samples yf).status = .unstable ↔
      ((∃ p ∈ poles, 0 < p.1) ∧ ∀ p ∈ poles, p.1 ≠ 0)) ∧
    ((analyzeTF poles samples yf).metrics = none ↔
      (analyzeTF poles samples yf).status ≠ .stable) ∧
    ((analyzeTF poles samples yf).simulated = false ↔
      (analyzeTF poles samples yf).status ≠ .stable) := by
  rw [analyzeTF_status, analyzeTF_metrics_none_iff, analyzeTF_simulated_iff]
  exact ⟨classifyStability_stable_iff poles, classifyStability_marginal_iff poles,
    classifyStability_unstable_iff poles, Iff.rfl, Iff.rfl⟩

/-- Helper for C6: the settling-time fold is antitone in the tolerance and
monotone in the accumulator — a sample outside the wider band is also outside
the tighter band. -/
lemma settlingTime_fold_mono (t1 t2 yf : Rat) (h : t1 ≤ t2) :
    ∀ (samples : List (Rat × Rat)) (a b : Rat), b ≤ a →
      samples.foldl (fun acc s => if t2 * |yf| < |s.2 - yf| then max acc s.1 else acc) b ≤
      samples.foldl (fun acc s => if t1 * |yf| < |s.2 - yf| then max acc s.1 else acc) a := by
  intro samples
  induction samples with
  | nil => intro a b hba; simpa using hba
  | cons s ss ih =>
      intro a b hba
      simp only [List.foldl_cons]
      apply ih
      by_cases h2 : t2 * |yf| < |s.2 - yf|
      · have h1 : t1 * |yf| < |s.2 - yf| :=
          lt_of_le_of_lt (mul_le_mul_of_nonneg_right h (abs_nonneg yf)) h2
        rw [if_pos h2, if_pos h1]
        exact max_le_max hba le_rfl
      · rw [if_neg h2]
        by_cases h1 : t1 * |yf| < |s.2 - yf|
        · rw [if_pos h1]
          exact le_trans hba (le_max_left a s.1)
        · rw [if_neg h1]
          exact hba

/-- Helper for C6: a wider tolerance band is left for the last time no later
than a tighter one. -/
lemma settlingTime_anti (t1 t2 yf : Rat) (h : t1 ≤ t2) (samples : List (Rat × Rat)) :
    settlingTime t2 yf samples ≤ settlingTime t1 yf samples :=
  settlingTime_fold_mono t1 t2 yf h samples 0 0 le_rfl

/-- C6: for a transfer function all of whose poles have strictly negative
real part, `analyze_tf` returns non-null metrics, and the 2% settling time is
at least the 5% settling time, whatever step response the simulation
produced. -/
theorem stable_metrics_nonnull_and_ordered
    (poles samples : List (Rat × Rat)) (yf : Rat)
    (h : ∀ p ∈ poles, p.1 < 0) :
    ∃ m, (analyzeTF poles samples yf).metrics = some m ∧
      m.settling_time_5_percent ≤ m.settling_time_2_percent := by
  have hst : classifyStability poles = .stable := (classifyStability_stable_iff poles).mpr h
  refine ⟨stepMetrics samples yf, ?_, ?_⟩
  · simp only [analyzeTF, hst, if_pos]
  · exact settlingTime_anti (2/100) (5/100) yf (by norm_num) samples

/-- C6 witness: a single pole at `-1` with a two-sample response reaching the
final value `1`. -/
theorem stable_metrics_nonnull_and_ordered_witness :
    ∃ m, (analyzeTF [(-1, 0)] [(0, 0), (1, 1)] 1).metrics = some m ∧
      m.settling_time_5_percent ≤ m.settling_time_2_percent :=
  stable_metrics_nonnull_and_ordered [(-1, 0)] [(0, 0), (1, 1)] 1
    (by
      intro p hp
      rw [List.mem_singleton] at hp
      subst hp
      norm_num)

/-- C7: when there are more poles than zeros the asymptote set exists, its
centroid is `(Σpoles − Σzeros)/(|P|−|Z|)` and its angles are exactly the
`|P|−|Z|` values `(2k+1)·180/(|P|−|Z|)` degrees; with at most as many poles
as zeros no asymptotes are produced. -/
theorem asymptotes_per_spec (zeros poles : List (Rat × Rat)) :
    (zeros.length < poles.length →
      ∃ A, computeAsymptotes zeros poles = some A ∧
        A.centroid = (((csum poles).1 - (csum zeros).1) / ((poles.length - zeros.length : Nat) : Rat),
                      ((csum poles).2 - (csum zeros).2) / ((poles.length - zeros.length : Nat) : Rat)) ∧
        A.angles.length = poles.length - zeros.length ∧
        ∀ k : Nat, k < poles.length - zeros.length →
          A.angles[k]? =
            some (((2 * k + 1 : Nat) : Rat) * 180 / ((poles.length - zeros.length : Nat) : Rat))) ∧
    (poles.length ≤ zeros.length → computeAsymptotes zeros poles = none) := by
  constructor
  · intro h
    unfold computeAsymptotes
    rw [if_pos h]
    refine ⟨_, rfl, rfl, by simp, ?_⟩
    intro k hk
    rw [List.getElem?_map, List.getElem?_range hk]
    rfl
  · intro h
    unfold computeAsymptotes
    rw [if_neg (not_lt.mpr h)]

/-- C7 witness: poles `0, -1` and no zeros give two asymptote angles; one
zero and no poles give no asymptotes. -/
theorem asymptotes_per_spec_witness :
    (∃ A, computeAsymptotes [] [(0, 0), (-1, 0)] = some A ∧ A.angles.length = 2) ∧
    computeAsymptotes [(0, 0)] [] = none := by
  obtain ⟨A, hA, hc, hlen, hk⟩ :=
    (asymptotes_per_spec [] [(0, 0), (-1, 0)]).1 (by decide)
  exact ⟨⟨A, hA, by simpa using hlen⟩, (asymptotes_per_spec [(0, 0)] []).2 (by decide)⟩

/-- Helper for C9: any group-2 capture produced by the matcher satisfies the
group-2 language `[+-]?[0-9\.]+j`. -/
lemma matchG1Split_g2Valid :
    ∀ (n : Nat) (part : List Char) (g1 : Option (List Char)) (v : List Char),
      matchG1Split n part = some (g1, some v) → g2Valid v = true := by
  intro n
  induction n with
  | zero =>
      intro part g1 v h
      simp only [matchG1Split] at h
      split_ifs at h with h1 h2 <;> simp_all
  | succ n ih =>
      intro part g1 v h
      simp only [matchG1Split] at h
      split_ifs at h with h1 h2 h3
      · simp_all
      · simp_all
      · exact ih part g1 v h
      · exact ih part g1 v h

/-- Helper for C9: a trimmed part equal to the bare token `j` makes
`parseComplexNumbers` throw. -/
lemma parse_throws_of_bare_j (input : String) (hne : jsTrim input.data ≠ [])
    (hmem : ['j'] ∈ (splitComma input.data).map jsTrim) :
    parseComplexNumbers input = .error invalidComplexMsg := by
  unfold parseComplexNumbers
  rw [if_neg hne]
  have hany :
      (((splitComma input.data).map jsTrim).map perPart).any
        (fun c => c.1.isNone || c.2.isNone) = true := by
    rw [List.any_eq_true]
    exact ⟨perPart ['j'], List.mem_map_of_mem perPart hmem, by decide⟩
  simp only [hany, if_true]

/-- C9: the branch of `parseComplexNumbers` mapping the bare imaginary tokens
`j`, `+j`, `-j` to imaginary part ±1 is unreachable — the regular expression
requires at least one digit or dot before `j`, so no group-2 capture equals
one of those tokens — and an input whose part list contains the bare token
`j` makes the function throw the invalid-format error. -/
theorem bare_j_branch_unreachable
    (part : List Char) (g1 g2 : Option (List Char))
    (hm : matchPart part = some (g1, g2))
    (input : String) (hne : jsTrim input.data ≠ [])
    (hmem : ['j'] ∈ (splitComma input.data).map jsTrim) :
    g2 ≠ some ['j'] ∧ g2 ≠ some ['+', 'j'] ∧ g2 ≠ some ['-', 'j'] ∧
    parseComplexNumbers input = .error invalidComplexMsg := by
  refine ⟨?_, ?_, ?_, parse_throws_of_bare_j input hne hmem⟩ <;>
    rintro rfl <;>
    have := matchG1Split_g2Valid part.length part g1 _ hm <;>
    simp [g2Valid, isDigitDot] at this

/-- C9 witness: the match of `"1+2j"` has captures `("1", "+2j")`, not a bare
token, and the input `"j"` throws the invalid-format error. -/
theorem bare_j_branch_unreachable_witness :
    (some ['+', '2', 'j'] : Option (List Char)) ≠ some ['j'] ∧
    (some ['+', '2', 'j'] : Option (List Char)) ≠ some ['+', 'j'] ∧
    (some ['+', '2', 'j'] : Option (List Char)) ≠ some ['-', 'j'] ∧
    parseComplexNumbers "j" = .error invalidComplexMsg :=
  bare_j_branch_unreachable ['1', '+', '2', 'j'] (some ['1']) (some ['+', '2', 'j'])
    (by decide) "j" (by decide) (by decide)

/-- Helper for C4: the result component renders every response without
raising — the `toFixed` calls sit behind the null guards — and always shows
the message when one is present. -/
lemma renderInverse_total (r : InverseResult) :
    ∃ lines, renderInverse r = .ok lines ∧ ∀ m, r.message = some m → m ∈ lines := by
  obtain ⟨dr, nf, msg⟩ := r
  cases dr <;> cases nf <;> cases msg <;>
    refine ⟨_, rfl, ?_⟩ <;> intro m hm <;> simp_all

/-- C4: an `inverse_analyze_tf` run whose metrics are mutually inconsistent
(no candidate solution) or whose candidate has ζ outside (0,1) or ωₙ ≤ 0
returns null `damping_ratio` and `natural_frequency` together with an
explanatory message — a normal result, not an error — and the result
component renders any response (in particular this one) without failing,
displaying the message. -/
theorem inverse_invalid_returns_null (candidate : Option (Rat × Rat))
    (hbad : ∀ z w : Rat, candidate = some (z, w) → ¬(0 < z ∧ z < 1 ∧ 0 < w)) :
    ((inverseAnalyzeTF candidate).damping_ratio = none ∧
     (inverseAnalyzeTF candidate).natural_frequency = none ∧
     ∃ m, (inverseAnalyzeTF candidate).message = some m) ∧
    (∃ lines, renderInverse (inverseAnalyzeTF candidate) = .ok lines ∧
      ∀ m, (inverseAnalyzeTF candidate).message = some m → m ∈ lines) := by
  refine ⟨?_, renderInverse_total (inverseAnalyzeTF candidate)⟩
  match candidate with
  | none => exact ⟨rfl, rfl, _, rfl⟩
  | some (z, w) =>
      have hb := hbad z w rfl
      simp only [inverseAnalyzeTF]
      rw [if_neg hb]
      exact ⟨rfl, rfl, _, rfl⟩

/-- C4 witness: the out-of-range candidate ζ = 2, ωₙ = 1 yields the null
result with a message. -/
theorem inverse_invalid_returns_null_witness :
    (inverseAnalyzeTF (some (2, 1))).damping_ratio = none ∧
    (inverseAnalyzeTF (some (2, 1))).natural_frequency = none ∧
    ∃ m, (inverseAnalyzeTF (some (2, 1))).message = some m :=
  (inverse_invalid_returns_null (some (2, 1))
    (by
      intro z w h
      simp only [Option.some.injEq, Prod.mk.injEq] at h
      obtain ⟨hz, hw⟩ := h
      subst hz
      norm_num)).1

/-- C10: whenever the gain string parses to `NaN` or to `0`, the request body
built by `analyzeFrequencyDomainAPI` carries `gain: 1.0`; any other parsed
gain is passed through unchanged; and the frequency-domain input handler
accepts a parsed gain of `0` as valid, issuing the request. -/
theorem zero_gain_replaced_by_one (g : Option Rat) (hg : g = none ∨ g = some 0)
    (v : Rat) (hv : v ≠ 0)
    (zs ps : String) (zl pl : List (Dec × Dec))
    (hz : parseComplexNumbers zs = .ok zl)
    (hp : parseComplexNumbers ps = .ok pl) (hpl : pl ≠ []) :
    sentGain g = 1 ∧
    sentGain (some v) = v ∧
    fdHandleAnalyze zs ps (some 0) = .request zl pl (some 0) := by
  refine ⟨?_, ?_, ?_⟩
  · rcases hg with h | h <;> simp [h, sentGain]
  · simp [sentGain, hv]
  · unfold fdHandleAnalyze
    rw [hz, hp]
    simp [List.length_eq_zero, hpl]

/-- C10 witness: with poles `-1`, a gain string parsing to `0` is accepted by
the input handler yet the body built for the backend carries gain `1`. -/
theorem zero_gain_replaced_by_one_witness :
    sentGain (some 0) = 1 ∧
    sentGain (some 2) = 2 ∧
    fdHandleAnalyze "" "-1" (some 0) = .request [] [((-1, 0), (0, 0))] (some 0) :=
  zero_gain_replaced_by_one (some 0) (Or.inr rfl) 2 (by norm_num) "" "-1"
    [] [((-1, 0), (0, 0))] (by decide) (by decide) (by decide)

end ACCal

-- sanity examples (they name no claim)
example : ACCal.parseComplexNumbers "" = .ok [] := by decide
example : ACCal.parseComplexNumbers "-1, -2+3j" =
    .ok [((-1, 0), (0, 0)), ((-2, 0), (3, 0))] := by decide
example : ACCal.parseComplexNumbers "j" = .error ACCal.invalidComplexMsg := by decide
example : ACCal.parseComplexNumbers "1.5-2.5j" = .ok [((15, 1), (-25, 1))] := by decide
example : ACCal.Dec.toRat (15, 1) = 3 / 2 := by norm_num [ACCal.Dec.toRat]
